import Mathlib

/-!
Shallow embedding of the Odia Lipi transliteration front end.

The embedding models the three source files of the repository:

* `services/geminiService.ts` (`src/unnamed/part_000`): the function
  `transliterateToOdia`, which checks the API key, short-circuits on
  whitespace-only input, calls the external service once with a fixed
  prompt, and converts any service failure into one generic error.
* `App.tsx`: the `useDebounce` hook (timer-based debounce with a fixed
  delay), the `handleTransliterate` callback (loading/error state, output
  assignment, bounded deduplicated history), and the auto-transliteration
  `useEffect` whose dependency list is `[debouncedInput, autoMode,
  handleTransliterate]`.
* `components/HistoryPanel.tsx`: the `onSelect` handler, which republishes
  a stored pair as the current input/output.

The external generative-language service is opaque; it is modelled as a
function from the prompt to either a failure (carrying an arbitrary cause
string) or a response whose `text` field is optional.  Request counting is
explicit: `transliterateToOdia` returns the number of service calls it
performed together with its result.
-/

/-- Error taxonomy of `transliterateToOdia`: the configuration error raised
when the API key is absent and the generic error raised when the service
call fails.  In the source both are `Error` values distinguished only by
their message; the spec names them `ConfigurationError` and
`TransliterationError`. -/
inductive TransError where
  | configError (msg : String)
  | transliterationError (msg : String)
deriving DecidableEq

/-- The fixed instruction prompt built by `transliterateToOdia`, with the
input text embedded literally (template literal in the source). -/
def buildPrompt (text : String) : String :=
  "\n      You are a strict transliteration engine. \n      Task: Convert the following phonetic English text into Odia (Oriya) script.\n      Rules:\n      1. Do NOT translate the meaning. Convert the sounds (phonemes) to Odia script.\n      2. Maintain punctuation and formatting (newlines, spacing).\n      3. Output ONLY the Odia text. No explanations.\n      4. Example: \"namaskar\" -> \"ନମସ୍କାର\"\n      5. Example: \"mu bhala achi\" -> \"ମୁଁ ଭଲ ଅଛି\"\n      \n      Input text:\n      \"" ++ text ++ "\"\n    "

/-- A service is a map from the prompt to either a failure cause or a
response; `Option String` models the optional `response.text` field. -/
def Service : Type := String → Except String (Option String)

/-- The JavaScript guard `!text.trim()`: `trim()` yields the empty (falsy)
string exactly when every character of `text` is whitespace, so the guard
is embedded as an all-whitespace check over the character data. -/
def jsBlank (text : String) : Bool :=
  text.data.all Char.isWhitespace

/-- The JavaScript `toLowerCase()` applied in the history deduplication,
embedded as a character-wise lowercase map. -/
def jsToLower (s : String) : String :=
  String.mk (s.data.map Char.toLower)

/-- Embedding of `transliterateToOdia` from `services/geminiService.ts`.
`apiKey` models `process.env.API_KEY || ''` (missing key = empty string);
the second component of the result counts calls to
`ai.models.generateContent`.  Source order: key check, then
`if (!text.trim()) return ""`, then one service call; on success the
result is `response.text?.trim() || ""`; on failure a single generic
error is thrown. -/
def transliterateToOdia (apiKey : String) (service : Service) (text : String) :
    Except TransError String × Nat :=
  if apiKey = "" then
    (Except.error (TransError.configError
      "API Key is missing. Please check your environment configuration."), 0)
  else if jsBlank text then
    (Except.ok "", 0)
  else
    match service (buildPrompt text) with
    | Except.ok respText =>
        (Except.ok ((respText.map String.trim).getD ""), 1)
    | Except.error _ =>
        (Except.error (TransError.transliterationError
          "Failed to transliterate text. Please try again."), 1)

/-- The `HistoryItem` interface from `types.ts`. -/
structure HistoryItem where
  id : String
  original : String
  transliterated : String
  timestamp : Nat
deriving DecidableEq

/-- The new history entry built inside `handleTransliterate`
(`id: Date.now().toString()`, `timestamp: Date.now()`); `now` stands for
`Date.now()`. -/
def mkHistoryItem (text result : String) (now : Nat) : HistoryItem :=
  { id := toString now, original := text, transliterated := result, timestamp := now }

/-- The history update performed in `handleTransliterate`'s success branch:
remove entries whose `original` equals the new text case-insensitively,
prepend the new item, keep the first 10 (`slice(0, 10)`). -/
def upsertHistory (prev : List HistoryItem) (text result : String) (now : Nat) :
    List HistoryItem :=
  (mkHistoryItem text result now ::
    prev.filter (fun p => jsToLower p.original != jsToLower text)).take 10

/-- The history after the `onClear` handler (`setHistory([])`). -/
def clearedHistory : List HistoryItem := []

/-- The uniqueness invariant on the history: no two entries share the same
`original` under case-insensitive comparison. -/
def historyInvariant (l : List HistoryItem) : Prop :=
  (l.map (fun p => jsToLower p.original)).Nodup

instance (l : List HistoryItem) : Decidable (historyInvariant l) := by
  unfold historyInvariant; infer_instance

/-- The orchestrator state held by `App` (`inputText`, `outputText`,
`isLoading`, `error`, `history`). -/
structure AppState where
  inputText : String
  outputText : String
  isLoading : Bool
  error : Option String
  history : List HistoryItem
deriving DecidableEq

/-- The initial state of `App` (`useState` initial values). -/
def initState : AppState :=
  { inputText := "", outputText := "", isLoading := false, error := none,
    history := [] }

/-- The synchronous part of `handleTransliterate` up to the `await`: the
blank guard (`if (!text.trim()) { setOutputText(''); return; }`), then
`setIsLoading(true); setError(null)` and dispatch of the request. -/
def dispatchStep (s : AppState) (text : String) : AppState :=
  if jsBlank text then { s with outputText := "" }
  else { s with isLoading := true, error := none }

/-- The continuation of `handleTransliterate` after the `await` settles.
On success: `setOutputText(result)`, then the history upsert when
`text.length > 2 && result` (non-empty result); on failure:
`setError(err.message || "Something went wrong.")` with the output left
untouched; in both cases `finally { setIsLoading(false) }`.  No request
identifier is consulted: the settling response is applied as-is. -/
def settleStep (s : AppState) (text : String) (call : Except String String)
    (now : Nat) : AppState :=
  match call with
  | Except.ok result =>
      let s1 := { s with outputText := result }
      let s2 :=
        if 2 < text.length ∧ result ≠ "" then
          { s1 with history := upsertHistory s1.history text result now }
        else s1
      { s2 with isLoading := false }
  | Except.error msg =>
      { s with
          error := some (if msg = "" then "Something went wrong." else msg),
          isLoading := false }

/-- `handleTransliterate` run to completion with a single settling call:
the blank guard returns early, otherwise dispatch followed by the
settlement of this request's call. -/
def handleTransliterate (s : AppState) (text : String)
    (call : Except String String) (now : Nat) : AppState :=
  if jsBlank text then dispatchStep s text
  else settleStep (dispatchStep s text) text call now

/-- Event-loop view of the orchestrator with overlapping requests: a
dispatch (the synchronous half of `handleTransliterate`) or the
settlement of a previously dispatched request's call.  Because the code
tags nothing, a settlement carries only the request's own text/result. -/
inductive AppEvent where
  | dispatched (text : String)
  | settled (text : String) (call : Except String String) (now : Nat)

/-- One event-loop step. -/
def stepEvent (s : AppState) : AppEvent → AppState
  | AppEvent.dispatched text => dispatchStep s text
  | AppEvent.settled text call now => settleStep s text call now

/-- Run of an interleaving of dispatches and settlements. -/
def runEvents (s : AppState) (evs : List AppEvent) : AppState :=
  evs.foldl stepEvent s

/-- The `onSelect` handler wired to `HistoryPanel`: republishes the stored
pair as the current input and output (`setInputText(item.original);
setOutputText(item.transliterated)`). -/
def onSelect (s : AppState) (item : HistoryItem) : AppState :=
  { s with inputText := item.original, outputText := item.transliterated }

/-- Timer semantics of `useDebounce`: the input is a time-stamped sequence
of updates to `value` (strictly increasing times assumed by the claims);
each update schedules `setDebouncedValue(value)` at `time + delay`, and the
effect cleanup (`clearTimeout`) cancels the pending timer when the next
update arrives before it fires.  The result lists the timer firings that
actually happen, i.e. the settlements of the debounced value. -/
def debounceFirings {α : Type} (delay : Nat) : List (Nat × α) → List (Nat × α)
  | [] => []
  | [(t, v)] => [(t + delay, v)]
  | (t1, v1) :: (t2, v2) :: rest =>
      if t2 < t1 + delay then debounceFirings delay ((t2, v2) :: rest)
      else (t1 + delay, v1) :: debounceFirings delay ((t2, v2) :: rest)

/-- A burst of updates in which each update arrives strictly less than
`delay` after the previous one. -/
def rapidBurst {α : Type} (delay : Nat) : List (Nat × α) → Bool
  | (t1, _) :: (t2, v2) :: rest =>
      decide (t2 < t1 + delay) && rapidBurst delay ((t2, v2) :: rest)
  | _ => true

/-- Actions the auto-transliteration `useEffect` body can perform: invoke
`handleTransliterate(debouncedInput)` (a request dispatch) or clear the
output. -/
inductive EffectAction where
  | dispatch (text : String)
  | clearOutput
deriving DecidableEq

/-- Body of the auto-transliteration effect in `App.tsx`:
`if (autoMode && debouncedInput) handleTransliterate(debouncedInput);
else if (!debouncedInput) setOutputText('')`. `debouncedInput` is truthy
exactly when non-empty. -/
def effectBody (debouncedInput : String) (autoMode : Bool) : List EffectAction :=
  if autoMode ∧ debouncedInput ≠ "" then [EffectAction.dispatch debouncedInput]
  else if debouncedInput = "" then [EffectAction.clearOutput]
  else []

/-- React re-run rule for the effect: its dependency list is
`[debouncedInput, autoMode, handleTransliterate]`, and `handleTransliterate`
is referentially stable (`useCallback` with an empty dependency list), so
the effect body runs again exactly when the pair
`(debouncedInput, autoMode)` changes between renders.  Given the dependency
pair of the previous render and the sequence of subsequent render states,
this collects every action the effect performs. -/
def runEffects : (String × Bool) → List (String × Bool) → List EffectAction
  | _, [] => []
  | prev, d :: rest =>
      (if d ≠ prev then effectBody d.1 d.2 else []) ++ runEffects d rest

/-- The reactive pipeline downstream of a history selection: `onSelect`
sets `inputText` to `item.original`; `useDebounce` settles that update
after the 800 ms window (`debounceFirings` on the single update); each
settlement is a new dependency pair for the auto-transliteration effect.
`currentDebounced` is the debounced input of the render before the
selection and `autoMode` the (unchanged) mode. -/
def afterSelect (currentDebounced : String) (autoMode : Bool)
    (item : HistoryItem) (t : Nat) : List EffectAction :=
  runEffects (currentDebounced, autoMode)
    ((debounceFirings 800 [(t, item.original)]).map (fun p => (p.2, autoMode)))

/-- A concrete always-succeeding service, used to evaluate the embedding on
concrete inputs. -/
def okService : Service := fun _ => Except.ok (some "odia-text")

/-- A concrete always-failing service with an explicit cause. -/
def failService (cause : String) : Service := fun _ => Except.error cause

/-- A concrete two-entry history with case-insensitively distinct originals. -/
def sampleHistory2 : List HistoryItem :=
  [{ id := "1", original := "Namaskar", transliterated := "t1", timestamp := 1 },
   { id := "2", original := "kemiti", transliterated := "t2", timestamp := 2 }]

/-- A concrete ten-entry history with pairwise distinct originals. -/
def sampleHistory10 : List HistoryItem :=
  [{ id := "1", original := "wa", transliterated := "t", timestamp := 1 },
   { id := "2", original := "wb", transliterated := "t", timestamp := 2 },
   { id := "3", original := "wc", transliterated := "t", timestamp := 3 },
   { id := "4", original := "wd", transliterated := "t", timestamp := 4 },
   { id := "5", original := "we", transliterated := "t", timestamp := 5 },
   { id := "6", original := "wf", transliterated := "t", timestamp := 6 },
   { id := "7", original := "wg", transliterated := "t", timestamp := 7 },
   { id := "8", original := "wh", transliterated := "t", timestamp := 8 },
   { id := "9", original := "wi", transliterated := "t", timestamp := 9 },
   { id := "10", original := "wj", transliterated := "t", timestamp := 10 }]

/-- A concrete history entry used to exercise `onSelect`. -/
def item0 : HistoryItem :=
  { id := "1", original := "namaskar", transliterated := "odia-out", timestamp := 1 }

-- Sanity checks on concrete inputs.
example :
    transliterateToOdia "" (fun _ => Except.ok (some "x")) "  " =
      (Except.error (TransError.configError
        "API Key is missing. Please check your environment configuration."), 0) := by
  rfl

example :
    (transliterateToOdia "k" (fun _ => Except.ok (some " ଓ ")) "abc").2 = 1 := by
  rfl

example :
    transliterateToOdia "k" (fun _ => Except.ok none) "abc" = (Except.ok "", 1) := by
  rfl

example :
    (handleTransliterate initState "namaskar" (Except.ok "ନମସ୍କାର") 5).outputText =
      "ନମସ୍କାର" := by
  rfl

example :
    (handleTransliterate initState "namaskar" (Except.ok "ନମସ୍କାର") 5).history =
      [mkHistoryItem "namaskar" "ନମସ୍କାର" 5] := by
  rfl

/-- C10: when the service credential is absent, `transliterateToOdia`
raises the configuration error for every input, including empty and
whitespace-only inputs, because the key check precedes the emptiness
short-circuit; the return-empty-string-without-a-call behaviour applies
only when a credential is present. -/
theorem missing_key_precedes_blank_check (service : Service) (text : String) :
    transliterateToOdia "" service text =
      (Except.error (TransError.configError
        "API Key is missing. Please check your environment configuration."), 0)
    ∧ (∀ apiKey : String, apiKey ≠ "" → jsBlank text = true →
        transliterateToOdia apiKey service text = (Except.ok "", 0)) := by
  constructor
  · simp [transliterateToOdia]
  · intro apiKey hk hb
    simp [transliterateToOdia, hk, hb]

/-- Witness for C10 at concrete inputs. -/
theorem missing_key_precedes_blank_check_witness :
    transliterateToOdia "" okService " " =
      (Except.error (TransError.configError
        "API Key is missing. Please check your environment configuration."), 0)
    ∧ transliterateToOdia "k" okService " " = (Except.ok "", 0) :=
  ⟨(missing_key_precedes_blank_check okService " ").1,
   (missing_key_precedes_blank_check okService " ").2 "k" (by decide) (by decide)⟩

/-- C2 as stated is false on the code: with the credential absent, the
whitespace-only input `"   "` yields the configuration error rather than
the empty string, and the non-blank input `"abc"` issues zero service
requests rather than exactly one. -/
theorem blank_shortcircuit_counterexample :
    (transliterateToOdia "" okService "   ").1 =
      Except.error (TransError.configError
        "API Key is missing. Please check your environment configuration.")
    ∧ Except.error (TransError.configError
        "API Key is missing. Please check your environment configuration.") ≠
        (Except.ok "" : Except TransError String)
    ∧ (transliterateToOdia "" okService "abc").2 = 0
    ∧ (0 : Nat) ≠ 1 := by
  refine ⟨rfl, by simp, rfl, by decide⟩

/-- C2 amended: when a service credential is present, every whitespace-only
or empty input returns the empty string with no service call, and every
other input issues exactly one service call per invocation, whatever the
service replies. -/
theorem blank_shortcircuit_with_key (apiKey text : String) (service : Service)
    (hk : apiKey ≠ "") :
    (jsBlank text = true →
      transliterateToOdia apiKey service text = (Except.ok "", 0))
    ∧ (jsBlank text = false →
      (transliterateToOdia apiKey service text).2 = 1) := by
  constructor
  · intro hb
    simp [transliterateToOdia, hk, hb]
  · intro hb
    simp [transliterateToOdia, hk, hb]
    cases service (buildPrompt text) <;> simp

/-- Witness for the amended C2 at concrete inputs. -/
theorem blank_shortcircuit_with_key_witness :
    transliterateToOdia "k" okService "  " = (Except.ok "", 0)
    ∧ (transliterateToOdia "k" okService "abc").2 = 1 :=
  ⟨(blank_shortcircuit_with_key "k" "  " okService (by decide)).1 (by decide),
   (blank_shortcircuit_with_key "k" "abc" okService (by decide)).2 (by decide)⟩

/-- C5: every failure of the external service call is re-signalled as the
single generic transliteration error whose message is a constant — the
underlying cause never appears in the result — and exactly one service
call is attempted, with the first failure surfacing immediately (no
retry). -/
theorem service_failure_generic (apiKey text cause : String) (service : Service)
    (hk : apiKey ≠ "") (ht : jsBlank text = false)
    (hf : service (buildPrompt text) = Except.error cause) :
    transliterateToOdia apiKey service text =
      (Except.error (TransError.transliterationError
        "Failed to transliterate text. Please try again."), 1) := by
  simp [transliterateToOdia, hk, ht, hf]

/-- Witness for C5 at concrete inputs. -/
theorem service_failure_generic_witness :
    transliterateToOdia "k" (failService "socket hang up") "abc" =
      (Except.error (TransError.transliterationError
        "Failed to transliterate text. Please try again."), 1) :=
  service_failure_generic "k" "abc" "socket hang up" (failService "socket hang up")
    (by decide) (by decide) rfl

/-- C6: when a dispatched request fails, the orchestrator records the error
message (the failure's own message, or the generic fallback when that
message is empty), ends the loading state, and leaves both the output and
the history exactly as they were before the request. -/
theorem failed_request_preserves_output (s : AppState) (text msg : String)
    (now : Nat) (ht : jsBlank text = false) :
    (handleTransliterate s text (Except.error msg) now).outputText = s.outputText
    ∧ (handleTransliterate s text (Except.error msg) now).error =
        some (if msg = "" then "Something went wrong." else msg)
    ∧ (handleTransliterate s text (Except.error msg) now).isLoading = false
    ∧ (handleTransliterate s text (Except.error msg) now).history = s.history := by
  simp [handleTransliterate, dispatchStep, settleStep, ht]

/-- Witness for C6 at concrete inputs. -/
theorem failed_request_preserves_output_witness :
    (handleTransliterate initState "abc" (Except.error "boom") 3).outputText =
        initState.outputText
    ∧ (handleTransliterate initState "abc" (Except.error "boom") 3).error =
        some (if "boom" = "" then "Something went wrong." else "boom")
    ∧ (handleTransliterate initState "abc" (Except.error "boom") 3).isLoading = false
    ∧ (handleTransliterate initState "abc" (Except.error "boom") 3).history =
        initState.history :=
  failed_request_preserves_output initState "abc" "boom" 3 (by decide)

/-- C3: after an upsert there is exactly one history entry whose original
equals the upserted text under case-insensitive comparison, and it sits in
first position; the no-duplicate invariant is preserved by the upsert and
holds for the cleared history, the only other history mutation. -/
theorem history_upsert_unique (prev : List HistoryItem) (text result : String)
    (now : Nat) (hinv : historyInvariant prev) :
    (upsertHistory prev text result now).countP
        (fun p => jsToLower p.original == jsToLower text) = 1
    ∧ (upsertHistory prev text result now).head? =
        some (mkHistoryItem text result now)
    ∧ historyInvariant (upsertHistory prev text result now)
    ∧ historyInvariant clearedHistory := by
  have hmem : ∀ p ∈ prev.filter (fun p => jsToLower p.original != jsToLower text),
      jsToLower p.original ≠ jsToLower text := by
    intro p hp
    simpa using (List.mem_filter.mp hp).2
  refine ⟨?_, ?_, ?_, ?_⟩
  · unfold upsertHistory
    rw [show (10 : Nat) = 9 + 1 from rfl, List.take_succ_cons, List.countP_cons]
    have h0 : ((prev.filter
        (fun p => jsToLower p.original != jsToLower text)).take 9).countP
        (fun p => jsToLower p.original == jsToLower text) = 0 := by
      apply List.countP_eq_zero.mpr
      intro a ha
      have ha2 := List.mem_of_mem_take ha
      simpa using hmem a ha2
    simp [h0, mkHistoryItem]
  · unfold upsertHistory
    rw [show (10 : Nat) = 9 + 1 from rfl, List.take_succ_cons]
    rfl
  · unfold historyInvariant upsertHistory
    rw [show (10 : Nat) = 9 + 1 from rfl, List.take_succ_cons, List.map_cons]
    refine List.nodup_cons.mpr ⟨?_, ?_⟩
    · intro hmem2
      rcases List.mem_map.mp hmem2 with ⟨a, ha, hfa⟩
      exact hmem a (List.mem_of_mem_take ha) (by simpa [mkHistoryItem] using hfa)
    · have h1 : List.Sublist
          ((prev.filter (fun p => jsToLower p.original != jsToLower text)).map
            (fun p => jsToLower p.original))
          (prev.map (fun p => jsToLower p.original)) :=
        (List.filter_sublist prev).map _
      have h2 : List.Sublist
          (((prev.filter (fun p => jsToLower p.original != jsToLower text)).take 9).map
            (fun p => jsToLower p.original))
          ((prev.filter (fun p => jsToLower p.original != jsToLower text)).map
            (fun p => jsToLower p.original)) :=
        (List.take_sublist 9 _).map _
      exact hinv.sublist (h2.trans h1)
  · simp [historyInvariant, clearedHistory]

/-- Witness for C3 at concrete inputs (upserting a case-variant duplicate
of an existing entry). -/
theorem history_upsert_unique_witness :
    historyInvariant sampleHistory2
    ∧ ((upsertHistory sampleHistory2 "NAMASKAR" "t3" 7).countP
          (fun p => jsToLower p.original == jsToLower "NAMASKAR") = 1
       ∧ (upsertHistory sampleHistory2 "NAMASKAR" "t3" 7).head? =
           some (mkHistoryItem "NAMASKAR" "t3" 7)
       ∧ historyInvariant (upsertHistory sampleHistory2 "NAMASKAR" "t3" 7)
       ∧ historyInvariant clearedHistory) :=
  ⟨by decide, history_upsert_unique sampleHistory2 "NAMASKAR" "t3" 7 (by decide)⟩

/-- C4: upserting an item whose original is case-insensitively distinct
from each entry of a ten-entry history with pairwise distinct originals
keeps exactly ten entries: the new item is first, the first nine previous
entries survive, and the previously last entry is evicted; moreover the
upsert never produces more than ten entries, whatever the history. -/
theorem history_capacity (prev : List HistoryItem) (text result : String)
    (now : Nat) (hlen : prev.length = 10) (hinv : historyInvariant prev)
    (hnew : ∀ p ∈ prev, jsToLower p.original ≠ jsToLower text) :
    upsertHistory prev text result now =
      mkHistoryItem text result now :: prev.take 9
    ∧ (upsertHistory prev text result now).length = 10
    ∧ ∀ l : List HistoryItem, (upsertHistory l text result now).length ≤ 10 := by
  have hfil : prev.filter (fun p => jsToLower p.original != jsToLower text) = prev := by
    apply List.filter_eq_self.mpr
    intro a ha
    simpa using hnew a ha
  have hmain : upsertHistory prev text result now =
      mkHistoryItem text result now :: prev.take 9 := by
    unfold upsertHistory
    rw [hfil, show (10 : Nat) = 9 + 1 from rfl, List.take_succ_cons]
  refine ⟨hmain, ?_, ?_⟩
  · rw [hmain]
    simp [List.length_take, hlen]
  · intro l
    unfold upsertHistory
    exact List.length_take_le 10 _

/-- Witness for C4 at concrete inputs: a full ten-entry history and an
eleventh distinct item. -/
theorem history_capacity_witness :
    sampleHistory10.length = 10
    ∧ historyInvariant sampleHistory10
    ∧ (∀ p ∈ sampleHistory10, jsToLower p.original ≠ jsToLower "kemiti")
    ∧ (upsertHistory sampleHistory10 "kemiti" "t" 11 =
        mkHistoryItem "kemiti" "t" 11 :: sampleHistory10.take 9
       ∧ (upsertHistory sampleHistory10 "kemiti" "t" 11).length = 10
       ∧ ∀ l : List HistoryItem, (upsertHistory l "kemiti" "t" 11).length ≤ 10) :=
  ⟨by decide, by decide, by decide,
   history_capacity sampleHistory10 "kemiti" "t" 11 (by decide) (by decide)
     (by decide)⟩

/-- C1 as stated is false on the code: request A (text `"abc"`) is
dispatched, then request B (text `"abd"`), B settles first with `"RB"`,
and A's late success with `"RA"` then overwrites the output — the final
output is A's result, not B's. -/
theorem stale_response_counterexample :
    (runEvents initState
      [AppEvent.dispatched "abc", AppEvent.dispatched "abd",
       AppEvent.settled "abd" (Except.ok "RB") 1,
       AppEvent.settled "abc" (Except.ok "RA") 2]).outputText = "RA"
    ∧ "RA" ≠ "RB" := by
  refine ⟨by decide, by decide⟩

/-- C1 amended: nothing discards or tags an in-flight request, so each
settling response is applied as-is and the final output is the result of
whichever request settles last; in particular, when request A settles
after request B, A's late arrival overwrites B's output. -/
theorem last_settled_wins (s : AppState) (evs : List AppEvent)
    (text r : String) (n : Nat) :
    (runEvents s (evs ++ [AppEvent.settled text (Except.ok r) n])).outputText
      = r := by
  unfold runEvents
  rw [List.foldl_append]
  simp only [List.foldl_cons, List.foldl_nil, stepEvent, settleStep]
  split <;> rfl

/-- C7 as stated is false on the code: with the debounced input settled at
the non-empty, unchanged value `"namaskar"`, toggling `autoMode` from
false to true changes the effect's dependency pair, the effect re-runs,
and a request for `"namaskar"` is dispatched. -/
theorem mode_toggle_counterexample :
    runEffects ("namaskar", false) [("namaskar", true)] =
      [EffectAction.dispatch "namaskar"]
    ∧ runEffects ("namaskar", false) [("namaskar", true)] ≠ [] := by
  refine ⟨by decide, by decide⟩

/-- C7 amended: the auto-transliteration effect re-runs whenever its
dependency pair (debounced input, mode) changes, so toggling from manual
to automatic with an already-settled, non-empty, unchanged debounced input
does dispatch a request; only a render in which neither dependency changed
dispatches nothing. -/
theorem mode_toggle_retriggers (s : String) (h : s ≠ "") :
    runEffects (s, false) [(s, true)] = [EffectAction.dispatch s]
    ∧ ∀ d : String × Bool, runEffects d [d] = [] := by
  constructor
  · simp [runEffects, effectBody, h]
  · intro d
    simp [runEffects]

/-- Witness for the amended C7 at a concrete input. -/
theorem mode_toggle_retriggers_witness :
    runEffects ("kemiti", false) [("kemiti", true)] =
      [EffectAction.dispatch "kemiti"]
    ∧ ∀ d : String × Bool, runEffects d [d] = [] :=
  mode_toggle_retriggers "kemiti" (by decide)

/-- C8 as stated is false on the code: selecting the history entry
`item0` republishes its pair, but the input change feeds the debounce and
auto-transliteration pipeline, so with automatic mode on and a different
current debounced input the selection leads to a dispatched request — and
a dispatched non-blank text costs one service call. -/
theorem select_no_network_counterexample :
    (onSelect initState item0).inputText = "namaskar"
    ∧ (onSelect initState item0).outputText = "odia-out"
    ∧ afterSelect "hello" true item0 0 = [EffectAction.dispatch "namaskar"]
    ∧ afterSelect "hello" true item0 0 ≠ []
    ∧ (transliterateToOdia "key" okService "namaskar").2 = 1 := by
  refine ⟨rfl, rfl, by decide, by decide, rfl⟩

/-- C8 amended: selecting a history entry republishes that entry's
original and transliterated texts as the current input and output with no
immediate request (loading, error and history are untouched); but the
pipeline is not bypassed: in automatic mode, once the debounced value
settles to the selected original (non-empty and different from the current
debounced input), a request for it is dispatched, while in manual mode no
request results. -/
theorem select_republishes (s : AppState) (item : HistoryItem)
    (cur : String) (t : Nat) (hne : item.original ≠ "")
    (hdiff : item.original ≠ cur) :
    (onSelect s item).inputText = item.original
    ∧ (onSelect s item).outputText = item.transliterated
    ∧ (onSelect s item).isLoading = s.isLoading
    ∧ (onSelect s item).error = s.error
    ∧ (onSelect s item).history = s.history
    ∧ afterSelect cur true item t = [EffectAction.dispatch item.original]
    ∧ afterSelect cur false item t = [] := by
  refine ⟨rfl, rfl, rfl, rfl, rfl, ?_, ?_⟩
  · simp [afterSelect, debounceFirings, runEffects, effectBody, hne, hdiff]
  · simp [afterSelect, debounceFirings, runEffects, effectBody, hne, hdiff]

/-- Witness for the amended C8 at concrete inputs. -/
theorem select_republishes_witness :
    (onSelect initState item0).inputText = item0.original
    ∧ (onSelect initState item0).outputText = item0.transliterated
    ∧ (onSelect initState item0).isLoading = initState.isLoading
    ∧ (onSelect initState item0).error = initState.error
    ∧ (onSelect initState item0).history = initState.history
    ∧ afterSelect "hello" true item0 3 = [EffectAction.dispatch item0.original]
    ∧ afterSelect "hello" false item0 3 = [] :=
  select_republishes initState item0 "hello" 3 (by decide) (by decide)

/-- C9: for every non-empty sequence of input updates in which each update
arrives strictly less than the quiescence window after the previous one,
the debounced value settles exactly once — to the last value of the
sequence, one window after its update time — every earlier pending timer
having been cancelled by the next update. -/
theorem debounce_settles_once {α : Type} (delay : Nat) :
    ∀ (l : List (Nat × α)) (p : Nat × α), rapidBurst delay l = true →
      l.getLast? = some p →
      debounceFirings delay l = [(p.1 + delay, p.2)] := by
  intro l
  induction l with
  | nil =>
      intro p _ hl
      simp at hl
  | cons x rest ih =>
      intro p hb hl
      cases rest with
      | nil =>
          obtain ⟨t, v⟩ := x
          simp at hl
          subst hl
          simp [debounceFirings]
      | cons y rest2 =>
          obtain ⟨t1, v1⟩ := x
          obtain ⟨t2, v2⟩ := y
          rw [List.getLast?_cons_cons] at hl
          unfold rapidBurst at hb
          rw [Bool.and_eq_true] at hb
          have hlt : t2 < t1 + delay := of_decide_eq_true hb.1
          rw [debounceFirings, if_pos hlt]
          exact ih p hb.2 hl

/-- Witness for C9: a three-update burst with gaps below the 800 ms window
settles once, to the last value, 800 ms after the last update. -/
theorem debounce_settles_once_witness :
    rapidBurst 800 [((0 : Nat), "n"), (100, "na"), (500, "nam")] = true
    ∧ ([((0 : Nat), "n"), (100, "na"), (500, "nam")]).getLast? = some (500, "nam")
    ∧ debounceFirings 800 [((0 : Nat), "n"), (100, "na"), (500, "nam")] =
        [(1300, "nam")] :=
  ⟨by decide, by decide, by
    have h := debounce_settles_once 800
      [((0 : Nat), "n"), (100, "na"), (500, "nam")] (500, "nam")
      (by decide) (by decide)
    simpa using h⟩
